import Mathlib

/-!
Verification of the users CRUD service (`src/main.go`).

The Go program is shallowly embedded: the database is an explicit state
(a list of rows plus the next serial id), the SQL statements issued by the
handlers are modelled as pure state transformers following PostgreSQL
semantics for the exact statements in the source, HTTP handlers are
functions from request data and database state to a response and a new
state, and the startup retry loop is a function producing a trace of
attempt/sleep events.
-/

namespace LearningGolang

/-- JSON values as they appear in the service responses. -/
inductive Json where
  | null
  | str (s : String)
  | num (n : Int)
  | arr (elems : List Json)
  | obj (fields : List (String × Json))
deriving Repr

/-- A row of the users table: `id serial primary key, name, department, email`. -/
structure User where
  id : Nat
  name : String
  department : String
  email : String
deriving Repr, DecidableEq

/-- The users table together with the next serial id the database would
generate (`id` is assigned by the persistence layer on insert). -/
structure DB where
  rows : List User
  nextId : Nat
deriving Repr, DecidableEq

/-- An HTTP response: status code and JSON body. -/
structure Response where
  status : Nat
  body : Json
deriving Repr

/-- `gin.H\x7b"error": msg\x7d` -/
def errBody (msg : String) : Json := Json.obj [("error", Json.str msg)]

/-- `gin.H\x7b"message": m\x7d` -/
def msgBody (m : String) : Json := Json.obj [("message", Json.str m)]

/-- The string values serialized at the top level of a response body. -/
def Json.topStrings : Json → List String
  | .obj fs => fs.filterMap (fun p => match p.2 with | .str s => some s | _ => none)
  | .str s => [s]
  | _ => []

/-! ## Configuration resolver (`getEnv`, the first half of `initDB`) -/

/-- `getEnv` from main.go: an environment value when non-empty, otherwise the
fallback. The environment is a total map `String → String`, an absent
variable reading as `""` exactly as `os.Getenv` reports it. -/
def getEnv (env : String → String) (key fallback : String) : String :=
  if env key ≠ "" then env key else fallback

/-- The `fmt.Sprintf` building the discrete-field connection string in
`initDB`. -/
def connString (host port user password dbname : String) : String :=
  "host=" ++ host ++ " port=" ++ port ++ " user=" ++ user ++
    " password=" ++ password ++ " dbname=" ++ dbname ++ " sslmode=require"

/-- The `psqlInfo` resolution at the top of `initDB`: a non-empty
`DATABASE_URL` is used verbatim, otherwise the five discrete variables are
resolved through `getEnv` with their built-in defaults. -/
def resolvePsqlInfo (env : String → String) : String :=
  if env "DATABASE_URL" ≠ "" then env "DATABASE_URL"
  else connString
    (getEnv env "DB_HOST" "learning-postgres")
    (getEnv env "DB_PORT" "5432")
    (getEnv env "DB_USER" "postgres")
    (getEnv env "DB_PASSWORD" "mysecretpassword")
    (getEnv env "DB_NAME" "learningdb")

/-! ## Connection manager: the ping retry loop in `initDB` and `main` -/

/-- Observable events of the startup loop: the n-th ping attempt (1-based)
and a sleep of a given number of seconds. -/
inductive Ev where
  | attempt (n : Nat)
  | sleep (secs : Nat)
deriving Repr, DecidableEq

def Ev.isAttempt : Ev → Bool
  | .attempt _ => true
  | _ => false

/-- The retry loop body of `initDB`: `for i := 0; i < maxRetries; i++`,
ping, return on success, otherwise sleep `i+1` seconds and continue.
`fuel` is the number of remaining iterations (`maxRetries - i`), `i` the
loop counter; the result is the event trace and whether a ping succeeded.
`ping i` is the outcome the database gives to the i-th ping (0-based). -/
def pingRetryGo (ping : Nat → Bool) : Nat → Nat → List Ev → List Ev × Bool
  | 0, _, tr => (tr, false)
  | fuel + 1, i, tr =>
    if ping i then (tr ++ [Ev.attempt (i + 1)], true)
    else pingRetryGo ping fuel (i + 1) (tr ++ [Ev.attempt (i + 1), Ev.sleep (i + 1)])

/-- The whole retry phase of `initDB` with `maxRetries := 5`. -/
def initDBPing (ping : Nat → Bool) : List Ev × Bool :=
  pingRetryGo ping 5 0 []

/-- The fatal message `main` logs when `initDB` exhausts its retries. -/
def fatalMsg : String :=
  "Database initialization failed: failed to connect to database after 5 attempts"

/-- What the process does after `initDB`: `log.Fatalf` (exit, never serving)
on error, otherwise it proceeds to register routes and serve. -/
inductive MainOutcome where
  | fatalExit (msg : String)
  | serving
deriving Repr, DecidableEq

/-- The startup path of `main`: run `initDB` and either die or serve. -/
def mainStartup (ping : Nat → Bool) : MainOutcome :=
  if (initDBPing ping).2 then MainOutcome.serving else MainOutcome.fatalExit fatalMsg

/-- The first ping (0-based index) that succeeds among the five attempted. -/
def firstSuccess (ping : Nat → Bool) : Option Nat :=
  [0, 1, 2, 3, 4].find? (fun j => ping j)

/-- The linear-backoff prefix: attempts `1..k`, each failed attempt followed
by a sleep of as many seconds as its index. -/
def backoffBlocks (k : Nat) : List Ev :=
  (List.range k).flatMap (fun t => [Ev.attempt (t + 1), Ev.sleep (t + 1)])

/-- The trace the spec describes: failed attempts interleaved with linearly
growing sleeps, stopping right at the first success, at most five attempts. -/
def expectedTrace (ping : Nat → Bool) : List Ev × Bool :=
  match firstSuccess ping with
  | some j => (backoffBlocks j ++ [Ev.attempt (j + 1)], true)
  | none => (backoffBlocks 5, false)

/-! ## User repository: the SQL statements issued by the handlers

The statements are modelled with PostgreSQL semantics for the exact SQL in
the source. The `id` column is `integer`; binding a parameter that is not
an integer literal makes the statement fail with a syntax error, which the
driver surfaces as the `error` return of `Exec`/`QueryRow`. -/

/-- What `sql.Result` offers the caller: `RowsAffected()` returns a count
and an error; the pair models that interface, the error injectable as a
driver fault. -/
structure SqlResult where
  rowsAffected : Nat
  rowsAffectedErr : Option String
deriving Repr, DecidableEq

def pqIntErr (idStr : String) : String :=
  "pq: invalid input syntax for type integer: " ++ idStr

/-- Digit-sequence parsing over the characters of a parameter value. -/
def parseDigitsGo : List Char → Nat → Option Nat
  | [], acc => some acc
  | c :: cs, acc => if c.isDigit then parseDigitsGo cs (acc * 10 + (c.toNat - 48)) else none

def parseDigits : List Char → Option Nat
  | [] => none
  | cs => parseDigitsGo cs 0

/-- PostgreSQL input parsing for the `integer` id column: an optional minus
sign followed by a non-empty digit sequence; anything else is a syntax
error. -/
def parseIntLit (s : String) : Option Int :=
  match s.data with
  | '-' :: cs => (parseDigits cs).map (fun v => -(v : Int))
  | cs => (parseDigits cs).map (fun v => (v : Int))

/-- `db.Exec("UPDATE users SET name = $1, department = $2, email = $3 WHERE id = $4", ...)`
with the raw path string bound to `$4`. `raFault` injects the error
`RowsAffected` would later return. -/
def dbExecUpdate (raFault : Option String) (db : DB)
    (name dept email idStr : String) : Except String (SqlResult × DB) :=
  match parseIntLit idStr with
  | none => Except.error (pqIntErr idStr)
  | some n =>
    let affected := db.rows.countP (fun u => (u.id : Int) == n)
    let rows := db.rows.map (fun u =>
      if (u.id : Int) == n then { u with name := name, department := dept, email := email } else u)
    Except.ok ({ rowsAffected := affected, rowsAffectedErr := raFault }, { db with rows := rows })

/-- `db.Exec("DELETE FROM users WHERE id = $1", id)` with the raw path
string bound to `$1`. -/
def dbExecDelete (raFault : Option String) (db : DB) (idStr : String) :
    Except String (SqlResult × DB) :=
  match parseIntLit idStr with
  | none => Except.error (pqIntErr idStr)
  | some n =>
    let affected := db.rows.countP (fun u => (u.id : Int) == n)
    Except.ok ({ rowsAffected := affected, rowsAffectedErr := raFault },
      { db with rows := db.rows.filter (fun u => !((u.id : Int) == n)) })

/-- `db.QueryRow("INSERT INTO users ... RETURNING id", ...).Scan(&userID)`:
the database assigns the next serial id and returns it; `fault` injects a
persistence failure (constraint violation, connection failure). -/
def dbInsertUser (fault : Option String) (db : DB) (name dept email : String) :
    Except String (Nat × DB) :=
  match fault with
  | some msg => Except.error msg
  | none => Except.ok (db.nextId,
      { rows := db.rows ++ [⟨db.nextId, name, dept, email⟩], nextId := db.nextId + 1 })

/-! ## HTTP handler layer -/

/-- A request body as the JSON binder sees it: either not decodable JSON
(with the decoder message), or a decoded object in which each of the three
bound fields is present or absent. -/
inductive ReqBody where
  | malformed (msg : String)
  | json (name department email : Option String)

/-- `c.ShouldBindJSON(&user)` on the anonymous three-string-field struct of
the source (no binding tags): malformed JSON is an error; a decoded object
leaves absent fields at their zero value `""`. -/
def shouldBindJSON : ReqBody → Except String (String × String × String)
  | .malformed msg => Except.error msg
  | .json n d e => Except.ok (n.getD "", d.getD "", e.getD "")

/-- The `createUser` handler. -/
def createUser (fault : Option String) (db : DB) (body : ReqBody) : Response × DB :=
  match shouldBindJSON body with
  | .error msg => ({ status := 400, body := errBody msg }, db)
  | .ok (name, dept, email) =>
    match dbInsertUser fault db name dept email with
    | .error msg => ({ status := 500, body := errBody msg }, db)
    | .ok (userID, db2) =>
      ({ status := 200, body := Json.obj [("id", Json.num (userID : Int))] }, db2)

/-- The `updateUser` handler; `idStr` is `c.Param("id")`, passed raw to the
statement. `rowsAffected, _ := result.RowsAffected()` keeps the count and
discards the error. -/
def updateUser (raFault : Option String) (db : DB) (idStr : String) (body : ReqBody) :
    Response × DB :=
  match shouldBindJSON body with
  | .error msg => ({ status := 400, body := errBody msg }, db)
  | .ok (name, dept, email) =>
    match dbExecUpdate raFault db name dept email idStr with
    | .error msg => ({ status := 500, body := errBody msg }, db)
    | .ok (result, db2) =>
      let rowsAffected := result.rowsAffected
      if rowsAffected == 0 then ({ status := 404, body := errBody "User not found" }, db2)
      else ({ status := 200, body := msgBody "User updated" }, db2)

/-- The `deleteUser` handler; `idStr` is `c.Param("id")`, passed raw. -/
def deleteUser (raFault : Option String) (db : DB) (idStr : String) : Response × DB :=
  match dbExecDelete raFault db idStr with
  | .error msg => ({ status := 500, body := errBody msg }, db)
  | .ok (result, db2) =>
    let rowsAffected := result.rowsAffected
    if rowsAffected == 0 then ({ status := 404, body := errBody "User not found" }, db2)
    else ({ status := 200, body := msgBody "User deleted" }, db2)

/-- One row as `getUsersFromDB` builds it: `gin.H` with id, name,
department, email scanned verbatim. -/
def userToJson (u : User) : Json :=
  Json.obj [("id", Json.num (u.id : Int)), ("name", Json.str u.name),
    ("department", Json.str u.department), ("email", Json.str u.email)]

/-- The slice accumulation of `getUsersFromDB`: `var users []...` starts as
the nil slice (`none`); each row is appended, a first append making the
slice non-nil. -/
def collectUsers (rows : List User) : Option (List Json) :=
  rows.foldl (fun users u => some (users.getD [] ++ [userToJson u])) none

/-- The `GET /users` handler: `c.JSON(200, users)`. Go marshals the nil
slice as JSON `null` and a non-nil slice as an array. -/
def getUsersHandler (db : DB) : Response :=
  match collectUsers db.rows with
  | none => { status := 200, body := Json.null }
  | some elems => { status := 200, body := Json.arr elems }

end LearningGolang

namespace LearningGolang

theorem trace_eq (ping : Nat → Bool) : initDBPing ping = expectedTrace ping := by
  cases h0 : ping 0 <;> cases h1 : ping 1 <;> cases h2 : ping 2 <;>
    cases h3 : ping 3 <;> cases h4 : ping 4 <;>
      simp [initDBPing, pingRetryGo, expectedTrace, firstSuccess, backoffBlocks,
        List.find?, h0, h1, h2, h3, h4, List.range_succ]

theorem countP_backoffBlocks (k : Nat) : (backoffBlocks k).countP Ev.isAttempt = k := by
  induction k with
  | zero => rfl
  | succ n ih =>
    simp [backoffBlocks, List.range_succ, List.countP_append, Ev.isAttempt] at ih ⊢
    omega

/-- Claim C1: during initialization, after opening the connection handle, the
ping is attempted at most 5 times with linear backoff (a wait of i seconds
between attempt i and attempt i+1); any success makes initialization
succeed immediately, and 5 failures make `main` log a fatal error so the
process never serves. -/
theorem c1_startup_retry (ping : Nat → Bool) :
    initDBPing ping = expectedTrace ping ∧
    (initDBPing ping).1.countP Ev.isAttempt ≤ 5 ∧
    ((∃ j, j < 5 ∧ ping j = true) → mainStartup ping = MainOutcome.serving) ∧
    ((∀ j, j < 5 → ping j = false) → mainStartup ping = MainOutcome.fatalExit fatalMsg) := by
  refine ⟨trace_eq ping, ?_, ?_, ?_⟩
  · rw [trace_eq]
    unfold expectedTrace
    cases hfs : firstSuccess ping with
    | none => simp [countP_backoffBlocks]
    | some j =>
      have hj : j ∈ [0, 1, 2, 3, 4] := List.mem_of_find?_eq_some hfs
      simp [List.countP_append, countP_backoffBlocks, Ev.isAttempt] at hj ⊢
      omega
  · rintro ⟨j, hj, hp⟩
    have hs : (firstSuccess ping).isSome := by
      apply List.find?_isSome.mpr
      exact ⟨j, by simp; omega, hp⟩
    unfold mainStartup
    rw [trace_eq]
    unfold expectedTrace
    cases hfs : firstSuccess ping with
    | none => rw [hfs] at hs; simp at hs
    | some k => simp
  · intro h
    have hn : firstSuccess ping = none := by
      apply List.find?_eq_none.mpr
      intro x hx
      simp at hx
      simp only [Bool.not_eq_true]
      rcases hx with rfl | rfl | rfl | rfl | rfl
      · exact h 0 (by omega)
      · exact h 1 (by omega)
      · exact h 2 (by omega)
      · exact h 3 (by omega)
      · exact h 4 (by omega)
    unfold mainStartup
    rw [trace_eq]
    unfold expectedTrace
    rw [hn]
    simp

theorem c1_startup_retry_witness :
    mainStartup (fun j => j == 2) = MainOutcome.serving ∧
    mainStartup (fun _ => false) = MainOutcome.fatalExit fatalMsg :=
  ⟨(c1_startup_retry (fun j => j == 2)).2.2.1 ⟨2, by decide, by decide⟩,
   (c1_startup_retry (fun _ => false)).2.2.2 (fun _ _ => rfl)⟩

end LearningGolang

namespace LearningGolang


/-- Claim C2 counterexample: with no rows, `GET /users` responds 200 with
JSON `null` (the nil slice marshals to `null`), not the empty array. -/
theorem c2_counterexample :
    (getUsersHandler { rows := [], nextId := 1 }).status = 200 ∧
    (getUsersHandler { rows := [], nextId := 1 }).body = Json.null ∧
    (getUsersHandler { rows := [], nextId := 1 }).body ≠ Json.arr [] :=
  ⟨rfl, rfl, fun h => Json.noConfusion h⟩

/-- Claim C2 amended: when the users table contains no rows, the handler
responds 200 with JSON `null` (the nil Go slice serializes to `null`), not
an error. -/
theorem c2_empty_table (db : DB) (h : db.rows = []) :
    getUsersHandler db = { status := 200, body := Json.null } := by
  simp [getUsersHandler, collectUsers, h]

theorem c2_empty_table_witness :
    getUsersHandler { rows := [], nextId := 1 } = { status := 200, body := Json.null } :=
  c2_empty_table { rows := [], nextId := 1 } rfl

/-- Claim C5: configuration resolution is total; a non-empty `DATABASE_URL`
is used verbatim, otherwise each of the five discrete fields resolves from
its own variable when non-empty and from its built-in default otherwise,
the five independent of one another. -/
theorem c5_config_resolution (env : String → String) :
    (env "DATABASE_URL" ≠ "" → resolvePsqlInfo env = env "DATABASE_URL") ∧
    (env "DATABASE_URL" = "" →
      resolvePsqlInfo env = connString
        (if env "DB_HOST" = "" then "learning-postgres" else env "DB_HOST")
        (if env "DB_PORT" = "" then "5432" else env "DB_PORT")
        (if env "DB_USER" = "" then "postgres" else env "DB_USER")
        (if env "DB_PASSWORD" = "" then "mysecretpassword" else env "DB_PASSWORD")
        (if env "DB_NAME" = "" then "learningdb" else env "DB_NAME")) := by
  constructor
  · intro h
    simp [resolvePsqlInfo, h]
  · intro h
    simp only [resolvePsqlInfo, getEnv, h, ne_eq, ite_not, not_true_eq_false, if_false]

theorem c5_config_resolution_witness :
    resolvePsqlInfo (fun k => if k = "DATABASE_URL" then "postgres://u:p@h/d" else "")
      = "postgres://u:p@h/d" ∧
    resolvePsqlInfo (fun _ => "")
      = connString "learning-postgres" "5432" "postgres" "mysecretpassword" "learningdb" := by
  constructor
  · exact (c5_config_resolution (fun k => if k = "DATABASE_URL" then "postgres://u:p@h/d" else "")).1
      (by decide)
  · have h := (c5_config_resolution (fun _ => "")).2 rfl
    simpa using h

/-- Claim C7: a request body that is not valid JSON makes `POST /users` and
`PUT /users/:id` respond 400 with the decoder error message and leaves the
stored table unchanged: no insert or update statement runs. -/
theorem c7_malformed_body (fault raFault : Option String) (db : DB) (idStr msg : String) :
    createUser fault db (ReqBody.malformed msg) = ({ status := 400, body := errBody msg }, db) ∧
    updateUser raFault db idStr (ReqBody.malformed msg)
      = ({ status := 400, body := errBody msg }, db) :=
  ⟨rfl, rfl⟩

end LearningGolang

namespace LearningGolang


/-- Claim C3: a `PUT /users/:id` or `DELETE /users/:id` whose statement
executes without a persistence error but affects zero rows gets a 404 with
error "User not found"; when at least one row is affected the response is
200 with the corresponding success message. -/
theorem c3_zero_rows_not_found (db : DB) (idStr : String) (body : ReqBody)
    (name dept email : String) (n : Int)
    (hb : shouldBindJSON body = Except.ok (name, dept, email))
    (hn : parseIntLit idStr = some n) :
    (db.rows.countP (fun u => (u.id : Int) == n) = 0 →
      (updateUser none db idStr body).1 = { status := 404, body := errBody "User not found" } ∧
      (deleteUser none db idStr).1 = { status := 404, body := errBody "User not found" }) ∧
    (db.rows.countP (fun u => (u.id : Int) == n) ≠ 0 →
      (updateUser none db idStr body).1 = { status := 200, body := msgBody "User updated" } ∧
      (deleteUser none db idStr).1 = { status := 200, body := msgBody "User deleted" }) := by
  constructor <;> intro hc <;>
    simp [updateUser, deleteUser, dbExecUpdate, dbExecDelete, hb, hn, hc]

theorem c3_zero_rows_not_found_witness :
    ((updateUser none { rows := [], nextId := 1 } "7"
        (ReqBody.json (some "a") (some "b") (some "c"))).1
      = { status := 404, body := errBody "User not found" } ∧
     (deleteUser none { rows := [], nextId := 1 } "7").1
      = { status := 404, body := errBody "User not found" }) ∧
    ((updateUser none { rows := [⟨7, "x", "y", "z"⟩], nextId := 8 } "7"
        (ReqBody.json (some "a") (some "b") (some "c"))).1
      = { status := 200, body := msgBody "User updated" } ∧
     (deleteUser none { rows := [⟨7, "x", "y", "z"⟩], nextId := 8 } "7").1
      = { status := 200, body := msgBody "User deleted" }) :=
  ⟨(c3_zero_rows_not_found { rows := [], nextId := 1 } "7"
      (ReqBody.json (some "a") (some "b") (some "c")) "a" "b" "c" 7 rfl (by decide)).1 (by decide),
   (c3_zero_rows_not_found { rows := [⟨7, "x", "y", "z"⟩], nextId := 8 } "7"
      (ReqBody.json (some "a") (some "b") (some "c")) "a" "b" "c" 7 rfl (by decide)).2 (by decide)⟩

/-- Claim C9: for every id absent from storage (including a path string
that is not an integer at all), update and delete leave the stored table
exactly as it was; in particular no row is silently created. -/
theorem c9_absent_id_frame (raFault : Option String) (db : DB) (idStr : String) (body : ReqBody)
    (h : ∀ u ∈ db.rows, some (u.id : Int) ≠ parseIntLit idStr) :
    (updateUser raFault db idStr body).2 = db ∧ (deleteUser raFault db idStr).2 = db := by
  cases hn : parseIntLit idStr with
  | none =>
    constructor
    · cases body with
      | malformed m => rfl
      | json a b c => simp [updateUser, shouldBindJSON, dbExecUpdate, hn]
    · simp [deleteUser, dbExecDelete, hn]
  | some n =>
    have hne : ∀ u ∈ db.rows, ¬ ((u.id : Int) = n) := by
      intro u hu
      have hh := h u hu
      rw [hn] at hh
      simp only [ne_eq, Option.some.injEq] at hh
      exact hh
    have hcount : db.rows.countP (fun u => (u.id : Int) == n) = 0 :=
      List.countP_eq_zero.mpr (fun u hu => by simp [hne u hu])
    constructor
    · cases body with
      | malformed m => rfl
      | json a b c =>
        have hmap : ∀ nm dp em : String,
            db.rows.map (fun u =>
              if (u.id : Int) = n then User.mk u.id nm dp em else u) = db.rows := by
          intro nm dp em
          have h1 : db.rows.map (fun u =>
              if (u.id : Int) = n then User.mk u.id nm dp em else u)
              = db.rows.map id :=
            List.map_congr_left (fun u hu => by simp [hne u hu])
          simpa using h1
        simp [updateUser, shouldBindJSON, dbExecUpdate, hn, hcount, hmap]
    · have hfil : db.rows.filter (fun u => !((u.id : Int) == n)) = db.rows :=
        List.filter_eq_self.mpr (fun u hu => by simp [hne u hu])
      simp [deleteUser, dbExecDelete, hn, hcount, hfil]

theorem c9_absent_id_frame_witness :
    (updateUser none { rows := [⟨1, "a", "b", "c"⟩], nextId := 2 } "9"
        (ReqBody.json (some "x") (some "y") (some "z"))).2
      = { rows := [⟨1, "a", "b", "c"⟩], nextId := 2 } ∧
    (deleteUser none { rows := [⟨1, "a", "b", "c"⟩], nextId := 2 } "9").2
      = { rows := [⟨1, "a", "b", "c"⟩], nextId := 2 } :=
  c9_absent_id_frame none { rows := [⟨1, "a", "b", "c"⟩], nextId := 2 } "9"
    (ReqBody.json (some "x") (some "y") (some "z")) (by decide)

end LearningGolang

namespace LearningGolang

/-- Claim C10: the update and delete handlers pass the raw path id string
straight to the SQL statement; a path id that is not a well-formed integer
surfaces as a persistence-layer error answered 500, never as a 400 (a 400
can only come from body binding). -/
theorem c10_raw_path_id (db : DB) (idStr : String) (body : ReqBody)
    (name dept email : String)
    (hid : parseIntLit idStr = none)
    (hb : shouldBindJSON body = Except.ok (name, dept, email)) :
    (updateUser none db idStr body).1 = { status := 500, body := errBody (pqIntErr idStr) } ∧
    (deleteUser none db idStr).1 = { status := 500, body := errBody (pqIntErr idStr) } ∧
    (∀ f d2 i2, (deleteUser f d2 i2).1.status ≠ 400) ∧
    (∀ f d2 i2 b2, (updateUser f d2 i2 b2).1.status = 400 →
      ∃ m, shouldBindJSON b2 = Except.error m) := by
  refine ⟨by simp [updateUser, hb, dbExecUpdate, hid],
    by simp [deleteUser, dbExecDelete, hid], ?_, ?_⟩
  · intro f d2 i2
    cases hdel : dbExecDelete f d2 i2 with
    | error m => simp [deleteUser, hdel]
    | ok pr =>
      by_cases hra : pr.1.rowsAffected = 0 <;> simp [deleteUser, hdel, hra]
  · intro f d2 i2 b2 hs
    cases hb2 : shouldBindJSON b2 with
    | error m => exact ⟨m, rfl⟩
    | ok t =>
      obtain ⟨a, b, c⟩ := t
      exfalso
      cases hex : dbExecUpdate f d2 a b c i2 with
      | error m => simp [updateUser, hb2, hex] at hs
      | ok pr =>
        by_cases hra : pr.1.rowsAffected = 0 <;> simp [updateUser, hb2, hex, hra] at hs

theorem c10_raw_path_id_witness :
    (updateUser none { rows := [⟨1, "a", "b", "c"⟩], nextId := 2 } "abc"
        (ReqBody.json (some "x") (some "y") (some "z"))).1
      = { status := 500, body := errBody (pqIntErr "abc") } ∧
    (deleteUser none { rows := [⟨1, "a", "b", "c"⟩], nextId := 2 } "abc").1
      = { status := 500, body := errBody (pqIntErr "abc") } :=
  ⟨(c10_raw_path_id { rows := [⟨1, "a", "b", "c"⟩], nextId := 2 } "abc"
      (ReqBody.json (some "x") (some "y") (some "z")) "x" "y" "z" (by decide) rfl).1,
   (c10_raw_path_id { rows := [⟨1, "a", "b", "c"⟩], nextId := 2 } "abc"
      (ReqBody.json (some "x") (some "y") (some "z")) "x" "y" "z" (by decide) rfl).2.1⟩

/-- Claim C4 counterexample: an error from `RowsAffected` is discarded by
`rowsAffected, _ := result.RowsAffected()`: the response is identical to
the fault-free one and the error message appears nowhere in the body. -/
theorem c4_counterexample :
    updateUser (some "rows affected unavailable") { rows := [], nextId := 1 } "1"
        (ReqBody.json (some "a") (some "b") (some "c"))
      = updateUser none { rows := [], nextId := 1 } "1"
        (ReqBody.json (some "a") (some "b") (some "c")) ∧
    "rows affected unavailable" ∉
      Json.topStrings (updateUser (some "rows affected unavailable") { rows := [], nextId := 1 }
        "1" (ReqBody.json (some "a") (some "b") (some "c"))).1.body :=
  ⟨rfl, by decide⟩

/-- Claim C4 amended: binding errors and statement-execution errors are
serialized into the response body, but the error from reading the
affected-row count is discarded: the handlers behave identically whatever
that error is. -/
theorem c4_request_errors (raFault : Option String) (db : DB) (idStr : String) (body : ReqBody) :
    updateUser raFault db idStr body = updateUser none db idStr body ∧
    deleteUser raFault db idStr = deleteUser none db idStr ∧
    (∀ m, shouldBindJSON body = Except.error m →
      (createUser raFault db body).1 = { status := 400, body := errBody m } ∧
      (updateUser raFault db idStr body).1 = { status := 400, body := errBody m }) ∧
    (∀ m name dept email, shouldBindJSON body = Except.ok (name, dept, email) →
      dbExecUpdate raFault db name dept email idStr = Except.error m →
      (updateUser raFault db idStr body).1 = { status := 500, body := errBody m }) ∧
    (∀ m, dbExecDelete raFault db idStr = Except.error m →
      (deleteUser raFault db idStr).1 = { status := 500, body := errBody m }) ∧
    (∀ m name dept email, shouldBindJSON body = Except.ok (name, dept, email) →
      dbInsertUser (some m) db name dept email = Except.error m ∧
      (createUser (some m) db body).1 = { status := 500, body := errBody m }) := by
  refine ⟨?_, ?_, ?_, ?_, ?_, ?_⟩
  · cases hb : shouldBindJSON body with
    | error m => simp [updateUser, hb]
    | ok t =>
      obtain ⟨a, b, c⟩ := t
      cases hn : parseIntLit idStr with
      | none => simp [updateUser, hb, dbExecUpdate, hn]
      | some n => simp [updateUser, hb, dbExecUpdate, hn]
  · cases hn : parseIntLit idStr with
    | none => simp [deleteUser, dbExecDelete, hn]
    | some n => simp [deleteUser, dbExecDelete, hn]
  · intro m hm
    exact ⟨by simp [createUser, hm], by simp [updateUser, hm]⟩
  · intro m a b c hb hex
    simp [updateUser, hb, hex]
  · intro m hex
    simp [deleteUser, hex]
  · intro m a b c hb
    exact ⟨rfl, by simp [createUser, hb, dbInsertUser]⟩

theorem c4_request_errors_witness :
    (createUser none { rows := [], nextId := 1 } (ReqBody.malformed "bad json")).1
      = { status := 400, body := errBody "bad json" } ∧
    (deleteUser none { rows := [], nextId := 1 } "zzz").1
      = { status := 500, body := errBody (pqIntErr "zzz") } :=
  ⟨((c4_request_errors none { rows := [], nextId := 1 } "1"
      (ReqBody.malformed "bad json")).2.2.1 "bad json" rfl).1,
   (c4_request_errors none { rows := [], nextId := 1 } "zzz"
      (ReqBody.malformed "x")).2.2.2.2.1 (pqIntErr "zzz") rfl⟩

/-- Claim C6 counterexample: a syntactically valid JSON body omitting the
required field name binds successfully: `POST /users` answers 200, and the
insert statement runs (the stored table changes). -/
theorem c6_counterexample :
    (createUser none { rows := [], nextId := 1 }
        (ReqBody.json none (some "Engineering") (some "user@example.com"))).1.status = 200 ∧
    (createUser none { rows := [], nextId := 1 }
        (ReqBody.json none (some "Engineering") (some "user@example.com"))).2
      ≠ { rows := [], nextId := 1 } :=
  ⟨rfl, by decide⟩

/-- Claim C6 amended: the bound struct carries no required-field tags, so a
valid JSON body missing name, department or email binds with the missing
fields as empty strings: no 400 is produced, and the repository operation
runs with those empty values; only a body that is not valid JSON is a
binding failure. -/
theorem c6_missing_fields_bind (db : DB) (idStr : String) (n d e : Option String) :
    shouldBindJSON (ReqBody.json n d e) = Except.ok (n.getD "", d.getD "", e.getD "") ∧
    (createUser none db (ReqBody.json n d e)).1.status = 200 ∧
    (createUser none db (ReqBody.json n d e)).2.rows
      = db.rows ++ [⟨db.nextId, n.getD "", d.getD "", e.getD ""⟩] ∧
    (updateUser none db idStr (ReqBody.json n d e)).1.status ≠ 400 := by
  refine ⟨rfl, rfl, rfl, ?_⟩
  cases hn : parseIntLit idStr with
  | none => simp [updateUser, shouldBindJSON, dbExecUpdate, hn]
  | some k =>
    by_cases hc : db.rows.countP (fun u => (u.id : Int) == k) = 0 <;>
      simp [updateUser, shouldBindJSON, dbExecUpdate, hn, hc]

end LearningGolang

namespace LearningGolang

theorem collectUsers_cons (r : User) (rs : List User) :
    collectUsers (r :: rs) = some ((r :: rs).map userToJson) := by
  suffices h : ∀ (l : List User) (acc : List Json),
      l.foldl (fun users u => some (users.getD [] ++ [userToJson u])) (some acc)
        = some (acc ++ l.map userToJson) by
    have h2 := h rs [userToJson r]
    simpa [collectUsers] using h2
  intro l
  induction l with
  | nil => intro acc; simp
  | cons x xs ih => intro acc; simp [ih]

theorem getUsersHandler_append (l : List User) (u : User) (k : Nat) :
    (getUsersHandler { rows := l ++ [u], nextId := k }).status = 200 ∧
    ∃ elems, (getUsersHandler { rows := l ++ [u], nextId := k }).body = Json.arr elems ∧
      userToJson u ∈ elems := by
  cases l with
  | nil =>
    refine ⟨rfl, [userToJson u], ?_, ?_⟩
    · simp [getUsersHandler, collectUsers_cons]
    · simp
  | cons r rs =>
    refine ⟨?_, ((r :: rs) ++ [u]).map userToJson, ?_, ?_⟩
    · simp [getUsersHandler, List.cons_append, collectUsers_cons]
    · simp [getUsersHandler, List.cons_append, collectUsers_cons]
    · exact List.mem_map_of_mem userToJson (by simp)

/-- Claim C8: inserting a valid payload returns the generated id and a
subsequent list contains, under that id, exactly the inserted values, with
no trimming or normalization by any layer. -/
theorem c8_roundtrip (db : DB) (name dept email : String)
    (hfresh : ∀ u ∈ db.rows, u.id < db.nextId) :
    (createUser none db (ReqBody.json (some name) (some dept) (some email))).1
      = { status := 200, body := Json.obj [("id", Json.num (db.nextId : Int))] } ∧
    (createUser none db (ReqBody.json (some name) (some dept) (some email))).2.rows.find?
        (fun u => u.id == db.nextId) = some ⟨db.nextId, name, dept, email⟩ ∧
    (∃ elems,
      (getUsersHandler
          (createUser none db (ReqBody.json (some name) (some dept) (some email))).2).body
        = Json.arr elems ∧
      userToJson ⟨db.nextId, name, dept, email⟩ ∈ elems) := by
  have hdb : (createUser none db (ReqBody.json (some name) (some dept) (some email))).2
      = { rows := db.rows ++ [⟨db.nextId, name, dept, email⟩], nextId := db.nextId + 1 } := rfl
  refine ⟨rfl, ?_, ?_⟩
  · rw [hdb]
    show (db.rows ++ [(⟨db.nextId, name, dept, email⟩ : User)]).find?
      (fun u => u.id == db.nextId) = some ⟨db.nextId, name, dept, email⟩
    rw [List.find?_append]
    have h1 : db.rows.find? (fun u => u.id == db.nextId) = none :=
      List.find?_eq_none.mpr (fun u hu => by
        have := hfresh u hu
        simp only [beq_iff_eq]
        omega)
    rw [h1]
    simp [List.find?]
  · rw [hdb]
    exact (getUsersHandler_append db.rows ⟨db.nextId, name, dept, email⟩ (db.nextId + 1)).2

theorem c8_roundtrip_witness :
    (createUser none { rows := [⟨1, "bob", "hr", "b@x"⟩], nextId := 2 }
        (ReqBody.json (some " Ann ") (some "R&D") (some "ann@x"))).1
      = { status := 200, body := Json.obj [("id", Json.num (2 : Int))] } ∧
    (createUser none { rows := [⟨1, "bob", "hr", "b@x"⟩], nextId := 2 }
        (ReqBody.json (some " Ann ") (some "R&D") (some "ann@x"))).2.rows.find?
        (fun u => u.id == 2) = some ⟨2, " Ann ", "R&D", "ann@x"⟩ := by
  have h := c8_roundtrip { rows := [⟨1, "bob", "hr", "b@x"⟩], nextId := 2 }
    " Ann " "R&D" "ann@x" (by decide)
  exact ⟨h.1, h.2.1⟩

theorem c6_missing_fields_bind_witness :
    shouldBindJSON (ReqBody.json none (some "d") (some "e")) = Except.ok ("", "d", "e") ∧
    (createUser none { rows := [], nextId := 1 }
        (ReqBody.json none (some "d") (some "e"))).1.status = 200 ∧
    (createUser none { rows := [], nextId := 1 }
        (ReqBody.json none (some "d") (some "e"))).2.rows
      = [] ++ [⟨1, "", "d", "e"⟩] ∧
    (updateUser none { rows := [], nextId := 1 } "1"
        (ReqBody.json none (some "d") (some "e"))).1.status ≠ 400 :=
  c6_missing_fields_bind { rows := [], nextId := 1 } "1" none (some "d") (some "e")

end LearningGolang
